import Mathlib

/-!
Shallow embedding of the core of the cloud-run-mcp repository: the local
proxy process manager (`startProxy` / `stopProxy`), the paginated log
aggregator behind the `get_service_log` tool, and the credential gate
(`gcpTool`) and handler logic of the tool registration layer.

JavaScript conventions are modelled explicitly:
- a value that may be `null`/`undefined` becomes `Option _`; JS truthiness
  of a nullable string (`if (x)`) is `jsTruthy` (`null`, `undefined` and
  `""` are falsy);
- a thrown error / rejected promise becomes `Except Err _`;
- a promise that may settle later becomes the `Settle` state driven by an
  explicit list of process events.
-/

/-- A JavaScript `Error` carrying its message. -/
structure Err where
  message : String
deriving DecidableEq, Repr

/-- One element of a tool result's `content` array. -/
structure ContentItem where
  type : String
  text : String
deriving DecidableEq, Repr

/-- The uniform tool result envelope `\x7b content: [ \x7b type, text \x7d ] \x7d`. -/
structure ToolResult where
  content : List ContentItem
deriving DecidableEq, Repr

/-- Builds the single-element text payload every tool returns. -/
def textResult (s : String) : ToolResult :=
  ⟨[⟨"text", s⟩]⟩

/-- JS truthiness of a nullable string: `null`/`undefined` and `""` are falsy. -/
def jsTruthy : Option String → Bool
  | none => false
  | some s => s ≠ ""

/-- JS `String.prototype.includes`: substring containment. -/
def jsIncludes (s sub : String) : Bool :=
  decide (sub.data <:+: s.data)

/-! ## Log aggregation (`get_service_log` handler in tools.js)

The handler loops: fetch one page with the current `requestOptions`,
push `response.logs` when truthy, set `requestOptions` from the response,
continue while `requestOptions` is truthy.  The external contract returns
`\x7b logs: string | null, requestOptions: <opaque token> | null \x7d`; the
token is an options object, so its JS truthiness is exactly `isSome`. -/

/-- Opaque continuation-token object returned by `getServiceLogs`. -/
structure ReqOptions where
  pageToken : String
deriving DecidableEq, Repr

/-- One page of the log-fetch collaborator's response. -/
structure LogPage where
  logs : Option String
  requestOptions : Option ReqOptions
deriving DecidableEq, Repr

/-- Runs the do/while fetch loop of the `get_service_log` handler against the
successive collaborator responses (in call order).  Returns the accumulated
blocks (or the thrown error) together with the number of fetches performed;
`none` means the loop would fetch again but no further response is modelled. -/
def fetchLogPages : List (Except Err LogPage) → Option (Except Err (List String) × Nat)
  | [] => none
  | Except.error e :: _ => some (Except.error e, 1)
  | Except.ok p :: rest =>
    let acc := match p.logs with
      | some s => if s = "" then [] else [s]
      | none => []
    match p.requestOptions with
    | some _ =>
      match fetchLogPages rest with
      | none => none
      | some (Except.error e, n) => some (Except.error e, n + 1)
      | some (Except.ok ls, n) => some (Except.ok (acc ++ ls), n + 1)
    | none => some (Except.ok acc, 1)

/-- The `get_service_log` tool handler: joins the accumulated blocks with a
newline on success, renders the caught error as a text result on failure. -/
def getServiceLogHandler (responses : List (Except Err LogPage))
    (project region service : String) : Option (Except Err ToolResult) :=
  match fetchLogPages responses with
  | none => none
  | some (Except.ok ls, _) => some (Except.ok (textResult (String.intercalate "\n" ls)))
  | some (Except.error e, _) =>
      some (Except.ok (textResult ("Error getting Logs for service " ++ service ++
        " in project " ++ project ++ " (region " ++ region ++ "): " ++ e.message)))

/-- The blocks the loop accumulates: the truthy `logs` fields, in page order. -/
def nonEmptyLogs (pages : List LogPage) : List String :=
  pages.filterMap fun p => match p.logs with
    | some s => if s = "" then none else some s
    | none => none

theorem fetchLogPages_ok_pages (ps : List LogPage) (p : LogPage)
    (extra : List (Except Err LogPage))
    (hps : ∀ q ∈ ps, q.requestOptions.isSome) (hp : p.requestOptions = none) :
    fetchLogPages ((ps ++ [p]).map Except.ok ++ extra)
      = some (Except.ok (nonEmptyLogs (ps ++ [p])), ps.length + 1) := by
  induction ps with
  | nil =>
    cases h : p.logs with
    | none => simp [fetchLogPages, nonEmptyLogs, hp, h]
    | some s =>
      by_cases hs : s = "" <;> simp [fetchLogPages, nonEmptyLogs, hp, h, hs]
  | cons q ps ih =>
    have hq : q.requestOptions.isSome := hps q (List.mem_cons_self q ps)
    have hps' : ∀ r ∈ ps, r.requestOptions.isSome := fun r hr => hps r (List.mem_cons_of_mem q hr)
    obtain ⟨t, ht⟩ := Option.isSome_iff_exists.mp hq
    simp only [List.cons_append, List.map_cons]
    rw [fetchLogPages]
    simp only [ht, ih hps']
    cases h : q.logs with
    | none => simp [nonEmptyLogs, List.filterMap_cons, h]
    | some s =>
      by_cases hs : s = "" <;> simp [nonEmptyLogs, List.filterMap_cons, h, hs]

theorem getServiceLogHandler_of_ok (rs : List (Except Err LogPage))
    (ls : List String) (n : Nat) (proj reg svc : String)
    (h : fetchLogPages rs = some (Except.ok ls, n)) :
    getServiceLogHandler rs proj reg svc
      = some (Except.ok (textResult (String.intercalate "\n" ls))) := by
  simp [getServiceLogHandler, h]

theorem getServiceLogHandler_of_error (rs : List (Except Err LogPage))
    (e : Err) (n : Nat) (proj reg svc : String)
    (h : fetchLogPages rs = some (Except.error e, n)) :
    getServiceLogHandler rs proj reg svc
      = some (Except.ok (textResult ("Error getting Logs for service " ++ svc ++
          " in project " ++ proj ++ " (region " ++ reg ++ "): " ++ e.message))) := by
  simp [getServiceLogHandler, h]

theorem fetchLogPages_error_pages (ps : List LogPage) (e : Err)
    (rest : List (Except Err LogPage))
    (hps : ∀ q ∈ ps, q.requestOptions.isSome) :
    fetchLogPages (ps.map Except.ok ++ (Except.error e :: rest))
      = some (Except.error e, ps.length + 1) := by
  induction ps with
  | nil => simp [fetchLogPages]
  | cons q ps ih =>
    have hq : q.requestOptions.isSome := hps q (List.mem_cons_self q ps)
    have hps' : ∀ r ∈ ps, r.requestOptions.isSome := fun r hr => hps r (List.mem_cons_of_mem q hr)
    obtain ⟨t, ht⟩ := Option.isSome_iff_exists.mp hq
    simp only [List.cons_append, List.map_cons]
    rw [fetchLogPages]
    simp [ht, ih hps']

/-- C4: the `get_service_log` aggregation fetches once per page in cursor
order, stops exactly at the first page whose continuation token is
null/absent (later responses are never consumed), and returns the truthy
log blocks joined with a single newline in fetch order; in particular on
pages `[(logs "a", token "t1"), (logs "b", token null)]` it returns
`"a\nb"` after exactly two fetches. -/
theorem getServiceLog_joinsPages (ps : List LogPage) (p : LogPage)
    (extra : List (Except Err LogPage)) (proj reg svc : String)
    (hps : ∀ q ∈ ps, q.requestOptions.isSome) (hp : p.requestOptions = none) :
    fetchLogPages ((ps ++ [p]).map Except.ok ++ extra)
      = some (Except.ok (nonEmptyLogs (ps ++ [p])), ps.length + 1)
    ∧ getServiceLogHandler ((ps ++ [p]).map Except.ok ++ extra) proj reg svc
      = some (Except.ok (textResult (String.intercalate "\n" (nonEmptyLogs (ps ++ [p])))))
    ∧ fetchLogPages ([⟨some "a", some ⟨"t1"⟩⟩, ⟨some "b", none⟩].map Except.ok)
      = some (Except.ok ["a", "b"], 2)
    ∧ getServiceLogHandler ([⟨some "a", some ⟨"t1"⟩⟩, ⟨some "b", none⟩].map Except.ok) proj reg svc
      = some (Except.ok (textResult "a\nb")) := by
  exact ⟨fetchLogPages_ok_pages ps p extra hps hp,
    getServiceLogHandler_of_ok _ _ _ proj reg svc (fetchLogPages_ok_pages ps p extra hps hp),
    rfl, rfl⟩

/-- Witness for C4 at the spec's two-page example. -/
theorem getServiceLog_joinsPages_witness :
    (∀ q ∈ [LogPage.mk (some "a") (some ⟨"t1"⟩)], q.requestOptions.isSome)
    ∧ (LogPage.mk (some "b") none).requestOptions = none
    ∧ getServiceLogHandler ([⟨some "a", some ⟨"t1"⟩⟩, ⟨some "b", none⟩].map Except.ok) "p" "r" "s"
      = some (Except.ok (textResult "a\nb")) :=
  ⟨by decide, rfl,
    (getServiceLog_joinsPages [⟨some "a", some ⟨"t1"⟩⟩] ⟨some "b", none⟩ [] "p" "r" "s"
      (by decide) rfl).2.2.2⟩

/-- C5: a failing page fetch aborts the `get_service_log` loop immediately
(exactly the failing fetch plus the successful ones before it are
performed, later responses are never consumed, nothing is retried), and the
handler returns a single failure text that is independent of the previously
accumulated log blocks — no partial log output is returned. -/
theorem getServiceLog_abortsOnFailure (ps ps₂ : List LogPage) (e : Err)
    (rest : List (Except Err LogPage)) (proj reg svc : String)
    (hps : ∀ q ∈ ps, q.requestOptions.isSome)
    (hps₂ : ∀ q ∈ ps₂, q.requestOptions.isSome) :
    fetchLogPages (ps.map Except.ok ++ (Except.error e :: rest))
      = some (Except.error e, ps.length + 1)
    ∧ getServiceLogHandler (ps.map Except.ok ++ (Except.error e :: rest)) proj reg svc
      = some (Except.ok (textResult ("Error getting Logs for service " ++ svc ++
          " in project " ++ proj ++ " (region " ++ reg ++ "): " ++ e.message)))
    ∧ getServiceLogHandler (ps₂.map Except.ok ++ (Except.error e :: rest)) proj reg svc
      = getServiceLogHandler (ps.map Except.ok ++ (Except.error e :: rest)) proj reg svc := by
  refine ⟨fetchLogPages_error_pages ps e rest hps,
    getServiceLogHandler_of_error _ _ _ proj reg svc (fetchLogPages_error_pages ps e rest hps),
    ?_⟩
  rw [getServiceLogHandler_of_error _ _ _ proj reg svc (fetchLogPages_error_pages ps e rest hps),
    getServiceLogHandler_of_error _ _ _ proj reg svc (fetchLogPages_error_pages ps₂ e rest hps₂)]

/-- Witness for C5: failure on the second fetch after one accumulated block
`"a"`; the result is the failure text, not the partial `"a"`. -/
theorem getServiceLog_abortsOnFailure_witness :
    (∀ q ∈ [LogPage.mk (some "a") (some ⟨"t1"⟩)], q.requestOptions.isSome)
    ∧ getServiceLogHandler
        ([LogPage.mk (some "a") (some ⟨"t1"⟩)].map Except.ok ++ (Except.error ⟨"boom"⟩ :: []))
        "p" "r" "s"
      = some (Except.ok (textResult
          "Error getting Logs for service s in project p (region r): boom")) :=
  ⟨by decide,
    ((getServiceLog_abortsOnFailure [⟨some "a", some ⟨"t1"⟩⟩] [] ⟨"boom"⟩ [] "p" "r" "s"
      (by decide) (by decide)).2.1)⟩

/-! ## Proxy process manager (cloud-run-proxy module)

The module holds one mutable variable `proxyProcess` (the spawned child or
`null`).  `startProxy` first checks that variable, then awaits the
capability pre-check, then spawns and installs stdout/stderr/close/error
handlers whose effect on the pending start promise is modelled by
`startStep` over an explicit event list.  A JS promise settles at most
once: later `resolve`/`reject` calls are no-ops, modelled by `settleResolve`
and `settleReject`. -/

/-- Settlement state of a JS promise. -/
inductive Settle where
  | pending : Settle
  | resolved : String → Settle
  | rejected : String → Settle
deriving DecidableEq, Repr

/-- JS `resolve msg`: a no-op unless the promise is still pending. -/
def settleResolve (p : Settle) (msg : String) : Settle :=
  match p with
  | Settle.pending => Settle.resolved msg
  | s => s

/-- JS `reject msg`: a no-op unless the promise is still pending. -/
def settleReject (p : Settle) (msg : String) : Settle :=
  match p with
  | Settle.pending => Settle.rejected msg
  | s => s

/-- Events a spawned child process can emit to its registered handlers. -/
inductive ProcEvent where
  | stdoutData : String → ProcEvent
  | stderrData : String → ProcEvent
  | closed : Int → ProcEvent
  | errored : String → ProcEvent
deriving DecidableEq, Repr

/-- The identity of an active proxy session: the spawn arguments of the
child process held in `proxyProcess`. -/
structure ProxySessionRec where
  project : String
  region : String
  service : String
  port : Nat
deriving DecidableEq, Repr

/-- The module state after `startProxy` has spawned: the `proxyProcess`
variable and the settlement state of the returned promise. -/
structure StartState where
  proxyProcess : Option ProxySessionRec
  promise : Settle
deriving DecidableEq, Repr

/-- The readiness marker scanned for in the child's stdout. -/
def readyMarker : String := "Proxying to Cloud Run service"

/-- State right after `proxyProcess = spawn(...)`: handle held, promise
pending. -/
def startInit (project region service : String) (port : Nat) : StartState :=
  { proxyProcess := some ⟨project, region, service, port⟩, promise := Settle.pending }

/-- Effect of one process event on the handlers `startProxy` registers:
stdout data resolves the promise iff it contains the readiness marker;
stderr data is only logged; `close` clears `proxyProcess` (and nothing
else — the code's comment defers to the error handler, which a plain
nonzero exit never triggers); `error` clears `proxyProcess` and rejects
with the prefixed underlying message. -/
def startStep (service : String) (port : Nat) (s : StartState) : ProcEvent → StartState
  | ProcEvent.stdoutData d =>
      let msg := "Proxy for service " ++ service ++ " started on port " ++ toString port ++ "."
      if jsIncludes d readyMarker then { s with promise := settleResolve s.promise msg }
      else s
  | ProcEvent.stderrData _ => s
  | ProcEvent.closed _ => { s with proxyProcess := none }
  | ProcEvent.errored m =>
      { proxyProcess := none,
        promise := settleReject s.promise ("Failed to start proxy: " ++ m) }

/-- Runs the spawned phase of `startProxy` over a list of process events. -/
def startRun (project region service : String) (port : Nat)
    (events : List ProcEvent) : StartState :=
  events.foldl (startStep service port) (startInit project region service port)

/-- An event is an output (stdout or stderr) line. -/
def isOutputEvent : ProcEvent → Bool
  | ProcEvent.stdoutData _ => true
  | ProcEvent.stderrData _ => true
  | _ => false

/-- An output event whose payload contains the readiness marker. -/
def mentionsMarker : ProcEvent → Bool
  | ProcEvent.stdoutData d => jsIncludes d readyMarker
  | _ => false

theorem startStep_no_marker (service : String) (port : Nat) (s : StartState)
    (ev : ProcEvent) (hout : isOutputEvent ev = true) (hm : mentionsMarker ev = false) :
    startStep service port s ev = s := by
  cases ev with
  | stdoutData d => simp [startStep, mentionsMarker] at hm ⊢; simp [hm]
  | stderrData d => rfl
  | closed c => simp [isOutputEvent] at hout
  | errored m => simp [isOutputEvent] at hout

/-- C7: `startProxy` never resolves before the readiness marker appears in
the child's stdout: over any sequence of output lines none of which
contains the marker the promise stays pending, and the first stdout chunk
containing the marker resolves it with the confirmation naming the service
and port. -/
theorem startProxy_resolvesOnlyOnMarker (project region service : String) (port : Nat)
    (pre : List ProcEvent) (d : String)
    (hout : ∀ ev ∈ pre, isOutputEvent ev = true ∧ mentionsMarker ev = false)
    (hd : jsIncludes d readyMarker = true) :
    (startRun project region service port pre).promise = Settle.pending
    ∧ (startRun project region service port (pre ++ [ProcEvent.stdoutData d])).promise
        = Settle.resolved ("Proxy for service " ++ service ++ " started on port "
            ++ toString port ++ ".") := by
  have hpre : startRun project region service port pre
      = startInit project region service port := by
    induction pre with
    | nil => rfl
    | cons ev evs ih =>
      have h1 := hout ev (List.mem_cons_self ev evs)
      have h2 : ∀ e ∈ evs, isOutputEvent e = true ∧ mentionsMarker e = false :=
        fun e he => hout e (List.mem_cons_of_mem ev he)
      show List.foldl (startStep service port)
        (startStep service port (startInit project region service port) ev) evs = _
      rw [startStep_no_marker service port _ ev h1.1 h1.2]
      exact ih h2
  constructor
  · rw [hpre]; rfl
  · show (List.foldl (startStep service port) (startInit project region service port)
      (pre ++ [ProcEvent.stdoutData d])).promise = _
    rw [List.foldl_append]
    show (startStep service port (startRun project region service port pre)
      (ProcEvent.stdoutData d)).promise = _
    rw [hpre]
    simp [startStep, hd, startInit, settleResolve]

/-- Witness for C7: one non-marker diagnostic line, then the marker line. -/
theorem startProxy_resolvesOnlyOnMarker_witness :
    (∀ ev ∈ [ProcEvent.stdoutData "diagnostic output"],
        isOutputEvent ev = true ∧ mentionsMarker ev = false)
    ∧ jsIncludes "Proxying to Cloud Run service svc" readyMarker = true
    ∧ (startRun "p1" "r1" "svc" 8080 [ProcEvent.stdoutData "diagnostic output"]).promise
        = Settle.pending
    ∧ (startRun "p1" "r1" "svc" 8080
        ([ProcEvent.stdoutData "diagnostic output"]
          ++ [ProcEvent.stdoutData "Proxying to Cloud Run service svc"])).promise
        = Settle.resolved "Proxy for service svc started on port 8080." :=
  ⟨by decide, by decide,
    (startProxy_resolvesOnlyOnMarker "p1" "r1" "svc" 8080
      [ProcEvent.stdoutData "diagnostic output"] "Proxying to Cloud Run service svc"
      (by decide) (by decide)).1,
    (startProxy_resolvesOnlyOnMarker "p1" "r1" "svc" 8080
      [ProcEvent.stdoutData "diagnostic output"] "Proxying to Cloud Run service svc"
      (by decide) (by decide)).2⟩

/-- C2 (code divergence): when the child exits before the marker (a `close`
event with a nonzero code, and no `error` event — a plain failed process),
the handle is released but the start promise is left pending forever; it is
not rejected with any failure message, contrary to the spec. -/
theorem startProxy_earlyExit_leavesPromisePending :
    startRun "p1" "r1" "svc" 8080 [ProcEvent.closed 1]
      = { proxyProcess := none, promise := Settle.pending }
    ∧ ∀ m, (startRun "p1" "r1" "svc" 8080 [ProcEvent.closed 1]).promise
        ≠ Settle.rejected m := by
  refine ⟨rfl, fun m h => ?_⟩
  simp [startRun, startStep, startInit] at h

/-! ### The pre-spawn phases of `startProxy`

Before spawning, `startProxy` (1) throws if `proxyProcess` is set, then
(2) awaits the capability pre-check and throws if the component is absent,
then (3) spawns and assigns `proxyProcess`.  `startProxyCall` runs one call
to completion against a fixed module state, also counting how many
capability checks and spawns it performs. -/

/-- How a single `startProxy` call ends. -/
inductive StartCallOutcome where
  | alreadyActive : String → StartCallOutcome
  | missingDependency : String → StartCallOutcome
  | spawned : StartState → StartCallOutcome
deriving DecidableEq, Repr

/-- Side-effect counters of one `startProxy` call. -/
structure CallTrace where
  capChecks : Nat
  spawns : Nat
deriving DecidableEq, Repr

/-- Message thrown when a proxy is already running. -/
def alreadyActiveMsg : String :=
  "A proxy is already running. Please stop it before starting a new one."

/-- Message thrown when the cloud-run-proxy component is absent. -/
def missingDependencyMsg : String :=
  "The 'cloud-run-proxy' component is not installed. Please run 'gcloud components install cloud-run-proxy' and try again."

/-- One `startProxy` call run to completion (no interleaving): returns its
outcome, the module's `proxyProcess` afterwards, and the call's
capability-check and spawn counts. -/
def startProxyCall (current : Option ProxySessionRec) (capInstalled : Bool)
    (project region service : String) (port : Nat) :
    StartCallOutcome × Option ProxySessionRec × CallTrace :=
  match current with
  | some h => (StartCallOutcome.alreadyActive alreadyActiveMsg, some h, ⟨0, 0⟩)
  | none =>
    if capInstalled then
      (StartCallOutcome.spawned (startInit project region service port),
        some ⟨project, region, service, port⟩, ⟨1, 1⟩)
    else
      (StartCallOutcome.missingDependency missingDependencyMsg, none, ⟨1, 0⟩)

/-- C6: a `startProxy` call issued while a session handle is held fails
with the already-active error, performs no capability check and no spawn,
and leaves the existing session record (handle and target attributes)
exactly as it was. -/
theorem startProxy_whileActive_rejectsUnchanged (h : ProxySessionRec) (cap : Bool)
    (project region service : String) (port : Nat) :
    startProxyCall (some h) cap project region service port
      = (StartCallOutcome.alreadyActive alreadyActiveMsg, some h, ⟨0, 0⟩) :=
  rfl

/-! ### `stopProxy`

`stopProxy` with no `proxyProcess` resolves immediately with "nothing to
stop"; otherwise it registers a `close` handler that clears the variable
and resolves, then sends the kill signal, and the promise stays pending
until the `close` event is observed. -/

/-- State of one `stopProxy` call: the module variable and the stop
promise. -/
structure StopState where
  proxyProcess : Option ProxySessionRec
  promise : Settle
deriving DecidableEq, Repr

/-- The synchronous part of `stopProxy`: the resulting state and whether
the kill signal was sent. -/
def stopProxyInit (current : Option ProxySessionRec) : StopState × Bool :=
  match current with
  | none => ({ proxyProcess := none,
               promise := Settle.resolved "No proxy is currently running." }, false)
  | some h => ({ proxyProcess := some h, promise := Settle.pending }, true)

/-- Effect of a process event on the handlers live during `stopProxy`: only
`close` does anything — it clears `proxyProcess` and resolves the stop
promise. -/
def stopStep (s : StopState) : ProcEvent → StopState
  | ProcEvent.closed _ =>
      { proxyProcess := none, promise := settleResolve s.promise "Proxy stopped." }
  | _ => s

/-- Runs `stopProxy` from a module state over a list of process events. -/
def stopRun (current : Option ProxySessionRec) (events : List ProcEvent) :
    StopState × Bool :=
  (events.foldl stopStep (stopProxyInit current).1, (stopProxyInit current).2)

/-- An event is a `close` event. -/
def isCloseEvent : ProcEvent → Bool
  | ProcEvent.closed _ => true
  | _ => false

theorem stopStep_not_close (s : StopState) (ev : ProcEvent)
    (h : isCloseEvent ev = false) : stopStep s ev = s := by
  cases ev with
  | closed c => simp [isCloseEvent] at h
  | stdoutData d => rfl
  | stderrData d => rfl
  | errored m => rfl

theorem stopFold_no_close (st : StopState) (evs : List ProcEvent)
    (hevs : ∀ ev ∈ evs, isCloseEvent ev = false) :
    evs.foldl stopStep st = st := by
  induction evs with
  | nil => rfl
  | cons ev evs ih =>
    rw [List.foldl_cons, stopStep_not_close st ev (hevs ev (List.mem_cons_self ev evs))]
    exact ih fun e he => hevs e (List.mem_cons_of_mem ev he)

theorem stopStep_resolved_none (msg : String) (ev : ProcEvent) :
    stopStep ⟨none, Settle.resolved msg⟩ ev = ⟨none, Settle.resolved msg⟩ := by
  cases ev <;> rfl

theorem stopFold_resolved_none (msg : String) (evs : List ProcEvent) :
    evs.foldl stopStep ⟨none, Settle.resolved msg⟩ = ⟨none, Settle.resolved msg⟩ := by
  induction evs with
  | nil => rfl
  | cons ev evs ih => rw [List.foldl_cons, stopStep_resolved_none, ih]

theorem settleResolve_not_rejected (p : Settle) (msg m : String)
    (hp : ∀ k, p ≠ Settle.rejected k) : settleResolve p msg ≠ Settle.rejected m := by
  cases p with
  | pending => simp [settleResolve]
  | resolved s => simp [settleResolve]
  | rejected s => exact (hp s rfl).elim

theorem stopFold_not_rejected (st : StopState) (evs : List ProcEvent)
    (hst : ∀ m, st.promise ≠ Settle.rejected m) :
    ∀ m, (evs.foldl stopStep st).promise ≠ Settle.rejected m := by
  induction evs generalizing st with
  | nil => exact hst
  | cons ev evs ih =>
    rw [List.foldl_cons]
    apply ih
    intro k
    cases ev with
    | closed c => exact settleResolve_not_rejected st.promise _ k hst
    | stdoutData d => exact hst k
    | stderrData d => exact hst k
    | errored m => exact hst k

/-- C8: `stopProxy` never fails — with no active session it resolves
immediately with the "nothing to stop" message regardless of later events
(so repeated stops are idempotent); with an active session the kill signal
is sent but the promise stays pending across every event sequence with no
`close` event, and on the observed `close` it resolves with the stop
confirmation, the handle released; and no module state and event sequence
can ever reject the stop promise. -/
theorem stopProxy_resolvesAfterExit (h : ProxySessionRec) (pre : List ProcEvent)
    (c : Int) (hpre : ∀ ev ∈ pre, isCloseEvent ev = false) :
    (∀ evs : List ProcEvent, stopRun none evs
        = ({ proxyProcess := none,
             promise := Settle.resolved "No proxy is currently running." }, false))
    ∧ (stopRun (some h) pre).1.promise = Settle.pending
    ∧ (stopRun (some h) pre).2 = true
    ∧ (stopRun (some h) (pre ++ [ProcEvent.closed c])).1
        = { proxyProcess := none, promise := Settle.resolved "Proxy stopped." }
    ∧ (∀ cur evs m, (stopRun cur evs).1.promise ≠ Settle.rejected m) := by
  refine ⟨?_, ?_, rfl, ?_, ?_⟩
  · intro evs
    show (evs.foldl stopStep ⟨none, Settle.resolved "No proxy is currently running."⟩,
      false) = _
    rw [stopFold_resolved_none]
  · show (pre.foldl stopStep ⟨some h, Settle.pending⟩).promise = _
    rw [stopFold_no_close _ pre hpre]
  · show (pre ++ [ProcEvent.closed c]).foldl stopStep ⟨some h, Settle.pending⟩ = _
    rw [List.foldl_append, stopFold_no_close _ pre hpre]
    rfl
  · intro cur evs m
    cases cur with
    | none =>
      apply stopFold_not_rejected
      intro k hk
      exact Settle.noConfusion hk
    | some g =>
      apply stopFold_not_rejected
      intro k hk
      exact Settle.noConfusion hk

/-- Witness for C8: an active session, one non-close event, then exit. -/
theorem stopProxy_resolvesAfterExit_witness :
    (∀ ev ∈ [ProcEvent.stderrData "shutting down"], isCloseEvent ev = false)
    ∧ (stopRun (some ⟨"p1", "r1", "svc", 8080⟩) [ProcEvent.stderrData "shutting down"]).1.promise
        = Settle.pending
    ∧ (stopRun (some ⟨"p1", "r1", "svc", 8080⟩)
        ([ProcEvent.stderrData "shutting down"] ++ [ProcEvent.closed 0])).1
        = { proxyProcess := none, promise := Settle.resolved "Proxy stopped." }
    ∧ stopRun none []
        = ({ proxyProcess := none,
             promise := Settle.resolved "No proxy is currently running." }, false) :=
  ⟨by decide,
    (stopProxy_resolvesAfterExit ⟨"p1", "r1", "svc", 8080⟩
      [ProcEvent.stderrData "shutting down"] 0 (by decide)).2.1,
    (stopProxy_resolvesAfterExit ⟨"p1", "r1", "svc", 8080⟩
      [ProcEvent.stderrData "shutting down"] 0 (by decide)).2.2.2.1,
    (stopProxy_resolvesAfterExit ⟨"p1", "r1", "svc", 8080⟩
      [ProcEvent.stderrData "shutting down"] 0 (by decide)).1 []⟩

/-! ### Interleaving two `startProxy` calls

The guard (`if (proxyProcess) throw`) runs before the `await` of the
capability pre-check, and `proxyProcess` is only assigned at spawn time, so
a call has two atomic phases with a suspension point between them:
`ready` (about to run the guard) and `awaitingCap` (guard passed, suspended
at the capability check).  Two calls A and B interleave under an arbitrary
scheduler. -/

/-- Progress of one `startProxy` call through its atomic phases. -/
inductive CallPhase where
  | ready : CallPhase
  | awaitingCap : CallPhase
  | doneAlready : CallPhase
  | doneMissing : CallPhase
  | doneSpawned : CallPhase
deriving DecidableEq, Repr

/-- Shared module state plus the phase of each of two concurrent calls. -/
structure TwoCallWorld where
  session : Option ProxySessionRec
  spawnCount : Nat
  callA : CallPhase
  callB : CallPhase
deriving DecidableEq, Repr

/-- Scheduler choice: which call runs its next atomic phase. -/
inductive Tid where
  | A : Tid
  | B : Tid
deriving DecidableEq, Repr

/-- One atomic phase of a call: the guard reads `proxyProcess` and either
throws or suspends; resuming from the capability check either throws
(component absent) or spawns, assigning `proxyProcess`.  Finished calls do
nothing. -/
def phaseStep (cap : Bool) (sess : Option ProxySessionRec) (spawnCount : Nat)
    (ph : CallPhase) (target : ProxySessionRec) :
    CallPhase × Option ProxySessionRec × Nat :=
  match ph with
  | CallPhase.ready =>
      match sess with
      | some g => (CallPhase.doneAlready, some g, spawnCount)
      | none => (CallPhase.awaitingCap, none, spawnCount)
  | CallPhase.awaitingCap =>
      if cap then (CallPhase.doneSpawned, some target, spawnCount + 1)
      else (CallPhase.doneMissing, sess, spawnCount)
  | other => (other, sess, spawnCount)

/-- Runs one scheduler step on the chosen call. -/
def twoCallStep (cap : Bool) (ta tb : ProxySessionRec) (w : TwoCallWorld) :
    Tid → TwoCallWorld
  | Tid.A =>
      let r := phaseStep cap w.session w.spawnCount w.callA ta
      { w with callA := r.1, session := r.2.1, spawnCount := r.2.2 }
  | Tid.B =>
      let r := phaseStep cap w.session w.spawnCount w.callB tb
      { w with callB := r.1, session := r.2.1, spawnCount := r.2.2 }

/-- Runs a schedule from the initial world: no session, both calls issued. -/
def twoCallRun (cap : Bool) (ta tb : ProxySessionRec) (sched : List Tid) :
    TwoCallWorld :=
  sched.foldl (twoCallStep cap ta tb)
    { session := none, spawnCount := 0, callA := CallPhase.ready, callB := CallPhase.ready }

/-- C3 counterexample: with the capability installed, the schedule that runs
both guards during the other call's capability-check suspension lets both
`startProxy` calls spawn a child process — the at-most-one invariant fails. -/
theorem twoStartProxy_bothSpawn :
    twoCallRun true ⟨"p", "r", "s1", 8080⟩ ⟨"p", "r", "s2", 8081⟩
        [Tid.A, Tid.B, Tid.A, Tid.B]
      = { session := some ⟨"p", "r", "s2", 8081⟩, spawnCount := 2,
          callA := CallPhase.doneSpawned, callB := CallPhase.doneSpawned } := by
  rfl

/-- Invariant used for the amended C3: once one call has spawned and the
other has not yet passed its guard, every further schedule keeps a single
spawn and the other call can only fail with the already-active error. -/
def guardedWorld (ta : ProxySessionRec) (w : TwoCallWorld) : Prop :=
  w.session = some ta ∧ w.spawnCount = 1 ∧ w.callA = CallPhase.doneSpawned
    ∧ (w.callB = CallPhase.ready ∨ w.callB = CallPhase.doneAlready)

theorem guardedWorld_step (cap : Bool) (ta tb : ProxySessionRec)
    (w : TwoCallWorld) (t : Tid) (hw : guardedWorld ta w) :
    guardedWorld ta (twoCallStep cap ta tb w t) := by
  obtain ⟨sess, n, ca, cb⟩ := w
  obtain ⟨hs, hn, ha, hb⟩ := hw
  have hs' : sess = some ta := hs
  have hn' : n = 1 := hn
  have ha' : ca = CallPhase.doneSpawned := ha
  have hb' : cb = CallPhase.ready ∨ cb = CallPhase.doneAlready := hb
  subst hs'; subst hn'; subst ha'
  cases t with
  | A => exact ⟨rfl, rfl, rfl, hb'⟩
  | B =>
    rcases hb' with hb' | hb' <;> subst hb'
    · exact ⟨rfl, rfl, rfl, Or.inr rfl⟩
    · exact ⟨rfl, rfl, rfl, Or.inr rfl⟩

/-- C3 amended: the singleton guard is effective only against a call whose
guard check runs after a prior call's spawn — if call A runs its guard and
spawn without interleaving, then under every continuation schedule exactly
one process is ever spawned and call B can only end with the already-active
failure.  (Per `twoStartProxy_bothSpawn`, a guard check interleaved into
A's capability-check suspension defeats the invariant.) -/
theorem twoStartProxy_serializedGuard (ta tb : ProxySessionRec) (sched : List Tid) :
    (twoCallRun true ta tb ([Tid.A, Tid.A] ++ sched)).spawnCount = 1
    ∧ (twoCallRun true ta tb ([Tid.A, Tid.A] ++ sched)).session = some ta
    ∧ (twoCallRun true ta tb ([Tid.A, Tid.A] ++ sched)).callA = CallPhase.doneSpawned
    ∧ ((twoCallRun true ta tb ([Tid.A, Tid.A] ++ sched)).callB = CallPhase.ready
        ∨ (twoCallRun true ta tb ([Tid.A, Tid.A] ++ sched)).callB = CallPhase.doneAlready) := by
  have hrun : ∀ (w : TwoCallWorld), guardedWorld ta w →
      guardedWorld ta (sched.foldl (twoCallStep true ta tb) w) := by
    intro w hw
    induction sched generalizing w with
    | nil => exact hw
    | cons t ts ih =>
      rw [List.foldl_cons]
      exact ih _ (guardedWorld_step true ta tb w t hw)
  have hinit : guardedWorld ta (twoCallRun true ta tb [Tid.A, Tid.A]) := by
    refine ⟨rfl, rfl, rfl, Or.inl rfl⟩
  have : twoCallRun true ta tb ([Tid.A, Tid.A] ++ sched)
      = sched.foldl (twoCallStep true ta tb) (twoCallRun true ta tb [Tid.A, Tid.A]) := by
    unfold twoCallRun
    rw [List.foldl_append]
  rw [this]
  obtain ⟨hs, hn, ha, hb⟩ := hrun _ hinit
  exact ⟨hn, hs, ha, hb⟩

/-! ## Tool registration layer (tools.js)

`gcpTool` wraps a handler with the credential gate; the deploy handlers
validate arguments by throwing (outside their try/catch) and catch only
the deploy collaborator's failure; `run_python_code` is registered with its
handler passed to `server.registerTool` directly, without `gcpTool`. -/

/-- The fixed advisory text of the credential gate's constant responder. -/
def credsAdvisoryText : String :=
  "GCP credentials are not available. Please configure your environment."

/-- The fixed advisory result of the credential gate. -/
def credsAdvisoryResult : ToolResult := textResult credsAdvisoryText

/-- The credential gate: with credentials available the handler is passed
through; otherwise it is replaced by a constant responder returning the
fixed advisory result. -/
def gcpTool {α : Type} (gcpCredentialsAvailable : Bool)
    (fn : α → Except Err ToolResult) : α → Except Err ToolResult :=
  if gcpCredentialsAvailable then fn else fun _ => Except.ok credsAdvisoryResult

/-- C9: with the credentials-available flag false, every invocation of a
gated tool returns the fixed advisory text, and the result is the same for
every underlying handler — the wrapped handler (and hence any collaborator
it would call) is never consulted. -/
theorem gcpTool_unavailable_shortCircuits {α : Type}
    (fn g : α → Except Err ToolResult) (a : α) :
    gcpTool false fn a = Except.ok credsAdvisoryResult
    ∧ gcpTool false fn a = gcpTool false g a := by
  exact ⟨rfl, rfl⟩

/-- Success text of the deploy tools for a service/project/region and the
collaborator's returned URI. -/
def deploySuccessText (service project region uri : String) : String :=
  "Cloud Run service " ++ service ++ " deployed in project " ++ project ++
    "\nCloud Console: https://console.cloud.google.com/run/detail/" ++ region ++
    "/" ++ service ++ "?project=" ++ project ++ "\nService URL: " ++ uri

/-- Response of the deploy collaborator. -/
structure DeployResponse where
  uri : String
deriving DecidableEq, Repr

/-- The `deploy_local_files` handler: throws on a missing project, a
non-array `files` or an empty `files` array (all outside the try/catch),
then calls the deploy collaborator inside try/catch and renders its failure
as a text result. -/
def deployLocalFilesHandler
    (deployC : String → String → String → List String → Except Err DeployResponse)
    (project : Option String) (region service : String)
    (files : Option (List String)) : Except Err ToolResult :=
  match project with
  | none => Except.error
      ⟨"Project must specified, please prompt the user for a valid existing Google Cloud project ID."⟩
  | some p =>
    match files with
    | none => Except.error ⟨"Files must specified"⟩
    | some fs =>
      if fs.length = 0 then Except.error ⟨"No files specified for deployment"⟩
      else
        match deployC p region service fs with
        | Except.ok resp =>
            Except.ok (textResult (deploySuccessText service p region resp.uri))
        | Except.error e =>
            Except.ok (textResult ("Error deploying to Cloud Run: " ++ e.message))

/-- One file object of `deploy_file_contents`. -/
structure FileSpec where
  filename : String
  content : Option String
deriving DecidableEq, Repr

/-- The for-loop validating that each file has truthy content: returns the
first offender, if any. -/
def findMissingContent : List FileSpec → Option FileSpec
  | [] => none
  | f :: rest => if jsTruthy f.content then findMissingContent rest else some f

/-- The `deploy_file_contents` handler: throws on a missing project, a
non-array or empty `files`, or a file without truthy content (all outside
the try/catch), then calls the deploy collaborator inside try/catch and
renders its failure as a text result. -/
def deployFileContentsHandler
    (deployC : String → String → String → List FileSpec → Except Err DeployResponse)
    (project : Option String) (region service : String)
    (files : Option (List FileSpec)) : Except Err ToolResult :=
  match project with
  | none => Except.error
      ⟨"Project must specified, please prompt the user for a valid existing Google Cloud project ID."⟩
  | some p =>
    match files with
    | none => Except.error ⟨"Files must be specified"⟩
    | some fs =>
      if fs.length = 0 then Except.error ⟨"No files specified for deployment"⟩
      else
        match findMissingContent fs with
        | some f => Except.error ⟨"File " ++ f.filename ++ " must have content"⟩
        | none =>
          match deployC p region service fs with
          | Except.ok resp =>
              Except.ok (textResult (deploySuccessText service p region resp.uri))
          | Except.error e =>
              Except.ok (textResult ("Error deploying to Cloud Run: " ++ e.message))

/-- C1 counterexample: a validation failure is not rendered as a text
result — invoking `deploy_local_files` with an empty `files` array makes
the handler throw, so the rejection propagates past the gateway instead of
being returned as an `Ok(text)` envelope. -/
theorem deployLocalFiles_validationThrows :
    deployLocalFilesHandler (fun _ _ _ _ => Except.ok ⟨"https://svc.run.app"⟩)
        (some "my-project") "my-region" "my-service" (some [])
      = Except.error ⟨"No files specified for deployment"⟩ := by
  rfl

theorem findMissingContent_none (fs : List FileSpec)
    (hfs : ∀ f ∈ fs, jsTruthy f.content = true) : findMissingContent fs = none := by
  induction fs with
  | nil => rfl
  | cons f rest ih =>
    rw [findMissingContent, hfs f (List.mem_cons_self f rest), if_pos rfl]
    exact ih fun g hg => hfs g (List.mem_cons_of_mem f hg)

/-- C1 amended: collaborator failures are caught and rendered as text — for
every collaborator behaviour (including a throwing one) a validly-invoked
deploy handler returns an `Ok(text)` envelope — but the deploy handlers'
argument-validation failures (missing project, missing/empty files array,
file without content) are thrown and propagate past the gateway. -/
theorem deployHandlers_catchCollaboratorOnly
    (deployC : String → String → String → List String → Except Err DeployResponse)
    (deployD : String → String → String → List FileSpec → Except Err DeployResponse)
    (p region service : String) (fs : List String) (gs : List FileSpec)
    (hfs : fs ≠ []) (hgs : gs ≠ [])
    (hcontent : ∀ f ∈ gs, jsTruthy f.content = true) :
    (∃ t, deployLocalFilesHandler deployC (some p) region service (some fs)
        = Except.ok t)
    ∧ (∃ t, deployFileContentsHandler deployD (some p) region service (some gs)
        = Except.ok t)
    ∧ deployLocalFilesHandler deployC none region service (some fs)
        = Except.error
            ⟨"Project must specified, please prompt the user for a valid existing Google Cloud project ID."⟩
    ∧ deployLocalFilesHandler deployC (some p) region service none
        = Except.error ⟨"Files must specified"⟩
    ∧ deployLocalFilesHandler deployC (some p) region service (some [])
        = Except.error ⟨"No files specified for deployment"⟩
    ∧ ∀ name, deployFileContentsHandler deployD (some p) region service
        (some [⟨name, none⟩])
        = Except.error ⟨"File " ++ name ++ " must have content"⟩ := by
  refine ⟨?_, ?_, rfl, rfl, rfl, fun name => rfl⟩
  · rw [deployLocalFilesHandler]
    rw [if_neg (by simpa using hfs)]
    cases deployC p region service fs with
    | ok r => exact ⟨_, rfl⟩
    | error e => exact ⟨_, rfl⟩
  · rw [deployFileContentsHandler]
    rw [if_neg (by simpa using hgs), findMissingContent_none gs hcontent]
    cases deployD p region service gs with
    | ok r => exact ⟨_, rfl⟩
    | error e => exact ⟨_, rfl⟩

/-- Witness for the amended C1: a throwing collaborator is still rendered
as text, while the thrown validation failures surface as errors. -/
theorem deployHandlers_catchCollaboratorOnly_witness :
    ([ "/a/index.js" ] : List String) ≠ []
    ∧ ([⟨"src/index.js", some "x"⟩] : List FileSpec) ≠ []
    ∧ (∀ f ∈ [(⟨"src/index.js", some "x"⟩ : FileSpec)], jsTruthy f.content = true)
    ∧ (∃ t, deployLocalFilesHandler (fun _ _ _ _ => Except.error ⟨"build failed"⟩)
        (some "my-project") "r" "s" (some ["/a/index.js"]) = Except.ok t) :=
  ⟨by decide, by decide, by decide,
    (deployHandlers_catchCollaboratorOnly
      (fun _ _ _ _ => Except.error ⟨"build failed"⟩)
      (fun _ _ _ _ => Except.error ⟨"build failed"⟩)
      "my-project" "r" "s" ["/a/index.js"] [⟨"src/index.js", some "x"⟩]
      (by decide) (by decide) (by decide)).1⟩

/-- The `run_python_code` handler: reads `CODE_SANDBOX_URL`, returns an
error text if it is unset, otherwise calls the sandbox collaborator and
returns its output as the text result, rendering a caught failure as an
error text. -/
def runPythonCodeHandler (sandbox : String → String → Except Err String)
    (sandboxUrl : Option String) (code : String) : Except Err ToolResult :=
  match sandboxUrl with
  | none =>
      Except.ok (textResult "Error: CODE_SANDBOX_URL environment variable is not set.")
  | some url =>
    match sandbox code url with
    | Except.ok output => Except.ok (textResult output)
    | Except.error e =>
        Except.ok (textResult ("Error running code in sandbox: " ++ e.message))

/-- In tools.js the `run_python_code` handler is passed to
`server.registerTool` directly — it is the only tool not wrapped in
`gcpTool` — so the registered handler does not depend on the
`gcpCredentialsAvailable` flag. -/
def runPythonCodeRegistered (_gcpCredentialsAvailable : Bool)
    (sandbox : String → String → Except Err String)
    (sandboxUrl : Option String) (code : String) : Except Err ToolResult :=
  runPythonCodeHandler sandbox sandboxUrl code

theorem textResult_inj (a b : String) (h : textResult a = textResult b) : a = b := by
  simpa [textResult] using h

theorem sandboxErrorText_ne_advisory (m : String) :
    ("Error running code in sandbox: " ++ m) ≠ credsAdvisoryText := by
  intro h
  have h2 := congrArg String.data h
  have hda : ("Error running code in sandbox: " ++ m).data
      = ("Error running code in sandbox: ").data ++ m.data := rfl
  rw [hda] at h2
  rw [show ("Error running code in sandbox: ").data
      = 'E' :: "rror running code in sandbox: ".data from rfl] at h2
  rw [show credsAdvisoryText.data
      = 'G' :: "CP credentials are not available. Please configure your environment.".data
      from rfl] at h2
  rw [List.cons_append] at h2
  injection h2 with h3 h4
  exact absurd h3 (by decide)

/-- C10 counterexample: with credentials unavailable, a sandbox whose
output happens to be exactly the advisory text makes `run_python_code`
return the fixed credentials-unavailable advisory result — so "never
returns the fixed advisory text" is false as universally stated. -/
theorem runPythonCode_advisoryEcho :
    runPythonCodeRegistered false (fun _ _ => Except.ok credsAdvisoryText)
        (some "http://sandbox.local") "print(1)"
      = Except.ok credsAdvisoryResult := rfl

/-- C10 amended: `run_python_code` is registered without the credential
gate — its registered handler equals the raw handler and is independent of
the credentials flag; with `CODE_SANDBOX_URL` unset it returns the specific
error text (which is not the advisory); otherwise the sandbox collaborator
determines the result (its output verbatim, or its failure rendered as an
error text that is never the advisory); the advisory result can only arise
when the sandbox output itself is exactly the advisory text. -/
theorem runPythonCode_ungated (avail avail₂ : Bool)
    (sandbox : String → String → Except Err String) (sandboxUrl : Option String)
    (url code out m : String) :
    runPythonCodeRegistered avail sandbox sandboxUrl code
      = runPythonCodeHandler sandbox sandboxUrl code
    ∧ runPythonCodeRegistered avail sandbox sandboxUrl code
      = runPythonCodeRegistered avail₂ sandbox sandboxUrl code
    ∧ runPythonCodeRegistered avail sandbox none code
      = Except.ok (textResult "Error: CODE_SANDBOX_URL environment variable is not set.")
    ∧ runPythonCodeRegistered avail sandbox none code ≠ Except.ok credsAdvisoryResult
    ∧ (sandbox code url = Except.ok out →
        runPythonCodeRegistered avail sandbox (some url) code
          = Except.ok (textResult out))
    ∧ (sandbox code url = Except.error ⟨m⟩ →
        runPythonCodeRegistered avail sandbox (some url) code
          = Except.ok (textResult ("Error running code in sandbox: " ++ m))
        ∧ runPythonCodeRegistered avail sandbox (some url) code
          ≠ Except.ok credsAdvisoryResult)
    ∧ (runPythonCodeRegistered avail sandbox (some url) code
        = Except.ok credsAdvisoryResult →
        sandbox code url = Except.ok credsAdvisoryText) := by
  refine ⟨rfl, rfl, rfl, ?_, ?_, ?_, ?_⟩
  · intro h
    have h1 : (Except.ok (textResult "Error: CODE_SANDBOX_URL environment variable is not set.")
          : Except Err ToolResult)
        = Except.ok (textResult credsAdvisoryText) := h
    have h2 := textResult_inj _ _ (Except.ok.inj h1)
    exact absurd h2 (by decide)
  · intro h
    show runPythonCodeHandler sandbox (some url) code = _
    rw [runPythonCodeHandler, h]
  · intro h
    constructor
    · show runPythonCodeHandler sandbox (some url) code = _
      rw [runPythonCodeHandler, h]
    · intro hc
      have hr : runPythonCodeHandler sandbox (some url) code
          = Except.ok (textResult ("Error running code in sandbox: " ++ m)) := by
        rw [runPythonCodeHandler, h]
      rw [show runPythonCodeRegistered avail sandbox (some url) code
          = runPythonCodeHandler sandbox (some url) code from rfl, hr] at hc
      exact sandboxErrorText_ne_advisory m (textResult_inj _ _ (Except.ok.inj hc))
  · intro h
    rw [show runPythonCodeRegistered avail sandbox (some url) code
        = runPythonCodeHandler sandbox (some url) code from rfl,
      runPythonCodeHandler] at h
    cases hs : sandbox code url with
    | ok o =>
      rw [hs] at h
      rw [textResult_inj _ _ (Except.ok.inj h)]
    | error e =>
      rw [hs] at h
      exact absurd (textResult_inj _ _ (Except.ok.inj h))
        (sandboxErrorText_ne_advisory e.message)

/-- Witness for the amended C10: a working sandbox call with the flag
false returns the sandbox output, not the advisory. -/
theorem runPythonCode_ungated_witness :
    ((fun _ _ => Except.ok "42") "print(6*7)" "http://sb"
      = (Except.ok "42" : Except Err String))
    ∧ runPythonCodeRegistered false (fun _ _ => Except.ok "42")
        (some "http://sb") "print(6*7)"
      = Except.ok (textResult "42") :=
  ⟨rfl, (runPythonCode_ungated false true (fun _ _ => Except.ok "42")
      (some "http://sb") "http://sb" "print(6*7)" "42" "m").2.2.2.2.1 rfl⟩
